import Mathlib

/-!
Shallow embedding of the jokes/weather MCP server
(`src/src/index.ts` and `src/unnamed/part_000`).

The repository registers five tools (four joke tools, one weather tool with a
required `city` parameter) on an MCP server, exposes a GET `/sse` route that
opens a streaming session and stores its transport in a plain `transports`
record keyed by session id, and a POST `/jokes` route that looks the session up
and either delegates to `handlePostMessage` or answers 400.

`src/src/index.ts` contains three concatenated variants of the file; they share
the joke handlers and the registry plumbing but differ in the weather handler:
the first variant (lines 53-78) and the handler in `src/unnamed/part_000`
(lines 94-141) guard a missing `city` and wrap the upstream call in try/catch,
while the third variant (lines 334-347) has neither guard nor catch.

Upstream HTTP calls are modelled as an `Except Unit payload` input: `.ok`
carries the decoded JSON payload, `.error` stands for any rejection of the
`fetch`/`json()` promise chain (network error, non-JSON body, timeout).
A handler that has no try/catch propagates that rejection, so it is embedded
as a function into `Except Unit InvocationResult`; the guarded weather
handlers are total.
-/

namespace JokesMCP

/-- One content block of an MCP tool result: `{ type: "text", text: ... }`. -/
structure ContentBlock where
  type : String
  text : String
deriving DecidableEq, Repr

/-- A tool result: `{ content: [...] }`. -/
structure InvocationResult where
  content : List ContentBlock
deriving DecidableEq, Repr

/-- JavaScript template-literal interpolation of a possibly-undefined value:
`${x}` renders the string itself when present and the text `undefined`
otherwise (as in the third weather variant, where a missing `city` is
interpolated literally). -/
def jsStr : Option String → String
  | some s => s
  | none => "undefined"

/-- JavaScript `String.prototype.trim`: strip leading and trailing
whitespace.  (Defined over the character list so it is kernel-computable.) -/
def jsTrim (s : String) : String :=
  ⟨((s.data.dropWhile Char.isWhitespace).reverse.dropWhile
      Char.isWhitespace).reverse⟩

/-- `weatherDesc` array element of the wttr.in payload: `{ value: ... }`. -/
structure WeatherDesc where
  value : String
deriving DecidableEq, Repr

/-- One element of `current_condition` in the wttr.in `format=j1` payload.
All numeric-looking fields arrive as JSON strings. -/
structure CurrentCondition where
  weatherDesc : List WeatherDesc
  temp_C : String
  temp_F : String
  humidity : String
  windspeedKmph : String
deriving DecidableEq, Repr

/-- The wttr.in payload shape the handlers read: `data.current_condition`. -/
structure WeatherJson where
  current_condition : List CurrentCondition
deriving DecidableEq, Repr

/-- The fixed weather reply template, identical in all three variants
(`src/unnamed/part_000` lines 116-127, `src/src/index.ts` lines 68-71 and
341-344): `Weather in ${city}: ${desc}. Temp ${tempC} °C (${tempF} °F),
Humidity ${humidity} %, Wind ${wind} km/h.`  `desc` comes from
`current.weatherDesc?.[0]?.value`, which interpolates as `undefined` when the
array is empty. -/
def weatherReply (city : String) (cur : CurrentCondition) : String :=
  let desc := jsStr ((cur.weatherDesc.head?).map (fun d => d.value))
  "Weather in " ++ city ++ ": " ++ desc ++ ". Temp " ++ cur.temp_C ++
    " °C (" ++ cur.temp_F ++ " °F), Humidity " ++ cur.humidity ++
    " %, Wind " ++ cur.windspeedKmph ++ " km/h."

/-- The apology emitted when the upstream weather call fails or the payload
has no `current_condition[0]`: `Sorry—couldn’t fetch weather for “${city}”.` -/
def weatherSorry (city : String) : String :=
  "Sorry—couldn’t fetch weather for “" ++ city ++ "”."

/-- `get-weather` handler of `src/unnamed/part_000` lines 94-141.
`city = params.city?.trim()`; a missing or whitespace-only city is falsy and
returns the guidance block without touching the upstream; otherwise the
fetch/parse runs inside try/catch, `current_condition?.[0]` missing throws,
and the catch returns the apology.  Total: no failure escapes the handler. -/
def getWeather (params : Option String) (upstream : Except Unit WeatherJson) :
    InvocationResult :=
  match params.map jsTrim with
  | none => ⟨[⟨"text", "Please specify a city name (e.g. London)."⟩]⟩
  | some c =>
    if c = "" then ⟨[⟨"text", "Please specify a city name (e.g. London)."⟩]⟩
    else
      match upstream with
      | Except.error _ => ⟨[⟨"text", weatherSorry c⟩]⟩
      | Except.ok data =>
        match data.current_condition.head? with
        | none => ⟨[⟨"text", weatherSorry c⟩]⟩
        | some cur => ⟨[⟨"text", weatherReply c cur⟩]⟩

/-- `get-weather` handler, first `index.ts` variant (lines 53-78).  Same
structure as `getWeather` but no `trim` and a different guidance message:
`Please tell me which city.` -/
def getWeatherV1 (params : Option String) (upstream : Except Unit WeatherJson) :
    InvocationResult :=
  match params with
  | none => ⟨[⟨"text", "Please tell me which city."⟩]⟩
  | some c =>
    if c = "" then ⟨[⟨"text", "Please tell me which city."⟩]⟩
    else
      match upstream with
      | Except.error _ => ⟨[⟨"text", weatherSorry c⟩]⟩
      | Except.ok data =>
        match data.current_condition.head? with
        | none => ⟨[⟨"text", weatherSorry c⟩]⟩
        | some cur => ⟨[⟨"text", weatherReply c cur⟩]⟩

/-- `get-weather` handler, third `index.ts` variant (lines 334-347).  No
missing-city guard (a missing `city` destructures to `undefined` and is
interpolated into the URL and the reply) and no try/catch (a rejected
fetch/json promise propagates out of the handler).  An empty
`current_condition` returns the apology without throwing. -/
def getWeatherV3 (params : Option String) (upstream : Except Unit WeatherJson) :
    Except Unit InvocationResult :=
  match upstream with
  | Except.error e => Except.error e
  | Except.ok data =>
    match data.current_condition.head? with
    | none => Except.ok ⟨[⟨"text", weatherSorry (jsStr params)⟩]⟩
    | some cur => Except.ok ⟨[⟨"text", weatherReply (jsStr params) cur⟩]⟩

/-- `get-chuck-joke` handler (`src/unnamed/part_000` lines 49-57, also
`index.ts` lines 32-35): fetch, take `value`, wrap in one text block.
No try/catch: an upstream rejection propagates out of the handler. -/
def getChuckJoke (upstream : Except Unit String) :
    Except Unit InvocationResult :=
  match upstream with
  | Except.error e => Except.error e
  | Except.ok value => Except.ok ⟨[⟨"text", value⟩]⟩

/-- `get-chuck-categories` handler (`src/unnamed/part_000` lines 59-67):
fetch the category array and return `data.join(", ")` as one text block.
No try/catch. -/
def getChuckCategories (upstream : Except Unit (List String)) :
    Except Unit InvocationResult :=
  match upstream with
  | Except.error e => Except.error e
  | Except.ok data => Except.ok ⟨[⟨"text", String.intercalate ", " data⟩]⟩

/-- `get-dad-joke` handler (`src/unnamed/part_000` lines 69-79): fetch, take
`joke`, wrap in one text block.  No try/catch. -/
def getDadJoke (upstream : Except Unit String) :
    Except Unit InvocationResult :=
  match upstream with
  | Except.error e => Except.error e
  | Except.ok joke => Except.ok ⟨[⟨"text", joke⟩]⟩

/-- `get-yo-mama-joke` handler (`src/unnamed/part_000` lines 81-91): fetch,
take `joke`, wrap in one text block.  No try/catch. -/
def getYoMamaJoke (upstream : Except Unit String) :
    Except Unit InvocationResult :=
  match upstream with
  | Except.error e => Except.error e
  | Except.ok joke => Except.ok ⟨[⟨"text", joke⟩]⟩

/-!
## Session registry and dispatcher

`const transports: Record<string, SSEServerTransport> = {}` keyed by the
transport's session id.  Session ids are opaque string tokens generated by the
SDK transport (not under `src/`); the model uses `Nat` as the opaque token
type, with freshness supplied by the spec-modelled generator below.  Each
registered transport is represented by its outbound stream: the list of tool
results written to it so far.
-/

/-- Opaque session identifier.  The source uses string tokens issued by the
transport; the model only compares them for equality and uses them as map
keys, so an opaque countable type suffices. -/
abbrev SessionId := Nat

/-- A transport's outbound event stream: the tool results sent on it. -/
abbrev Stream := List JokesMCP.InvocationResult

/-- The server's shared state: the `transports` record of
`src/unnamed/part_000` line 145 (`index.ts` lines 82, 252, 351), a finite map
from session id to the session's transport (represented by its stream). -/
structure ServerState where
  transports : List (SessionId × Stream)
deriving DecidableEq, Repr

/-- The session ids currently present in the registry. -/
def keys (st : ServerState) : List SessionId :=
  st.transports.map Prod.fst

/-- `transports[sessionId]`: the lookup on the POST path
(`src/unnamed/part_000` line 159). -/
def lookupTransport (st : ServerState) (id : SessionId) : Option Stream :=
  (st.transports.find? (fun p => p.1 == id)).map Prod.snd

/-- `transports[transport.sessionId] = transport`: JavaScript property
assignment overwrites an existing key in place and appends a new key
(`src/unnamed/part_000` line 152). -/
def insertTransport (st : ServerState) (id : SessionId) (tr : Stream) :
    ServerState :=
  if (keys st).contains id then
    ⟨st.transports.map (fun p => if p.1 = id then (id, tr) else p)⟩
  else
    ⟨st.transports ++ [(id, tr)]⟩

/-- `res.on("close", () => delete transports[transport.sessionId])`
(`src/unnamed/part_000` line 153): deleting a property removes the key;
deleting an absent key is a no-op. -/
def closeSession (st : ServerState) (id : SessionId) : ServerState :=
  ⟨st.transports.filter (fun p => p.1 != id)⟩

/-- Modelled from the spec: the session id generator lives in the SDK's
`SSEServerTransport` constructor, not under `src/`.  §4.2: `open()` generates
a fresh unique identifier never issued before; the model issues the counter
value and advances it, so every issued id is below the counter and every
future id is at or above it. -/
def genId (g : Nat) : SessionId × Nat :=
  (g, g + 1)

/-- The GET `/sse` route (`src/unnamed/part_000` lines 147-155): construct a
transport with a fresh session id and an empty stream, store it in
`transports`, and return the id.  Id freshness is supplied by the
spec-modelled `genId`. -/
def openSession (st : ServerState) (g : Nat) :
    SessionId × ServerState × Nat :=
  let (id, g1) := genId g
  (id, insertTransport st id [], g1)

/-- `n` successive `open()` calls starting from generator state `g`:
the issued ids, the final registry, and the final generator state. -/
def openMany (st : ServerState) (g : Nat) : Nat → List SessionId × ServerState × Nat
  | 0 => ([], st, g)
  | n + 1 =>
    let (id, st1, g1) := openSession st g
    let (ids, st2, g2) := openMany st1 g1 n
    (id :: ids, st2, g2)

/-- The synchronous HTTP answer of the POST `/jokes` route: either the
transport-level acknowledgment produced by `handlePostMessage`, or the 400
rejection `res.status(400).send("No transport found for sessionId")`. -/
inductive Ack where
  | accepted
  | sessionNotFound
deriving DecidableEq, Repr

/-- HTTP status of the synchronous answer.  The 400 comes from the source
(`src/unnamed/part_000` line 163).  Modelled from the spec: the acknowledgment
status of `handlePostMessage` (SDK code, not under `src/`) is the §6 "small
acknowledgment (HTTP 200)". -/
def ackStatus : Ack → Nat
  | Ack.accepted => 200
  | Ack.sessionNotFound => 400

/-- A dispatched tool invocation: the tool being named together with the
environment of its handler (the optional `city` argument where declared, and
the outcome of the handler's upstream call).  The three weather constructors
correspond to the three registered variants of `get-weather`. -/
inductive ToolRequest where
  | chuckJoke (upstream : Except Unit String)
  | chuckCategories (upstream : Except Unit (List String))
  | dadJoke (upstream : Except Unit String)
  | yoMamaJoke (upstream : Except Unit String)
  | weather (city : Option String) (upstream : Except Unit WeatherJson)
  | weatherV1 (city : Option String) (upstream : Except Unit WeatherJson)
  | weatherV3 (city : Option String) (upstream : Except Unit WeatherJson)

/-- Resolve and run the registered handler of a request.  `Except.error`
means the handler's promise rejected (only possible for the handlers without
a try/catch). -/
def invokeTool : ToolRequest → Except Unit InvocationResult
  | ToolRequest.chuckJoke u => getChuckJoke u
  | ToolRequest.chuckCategories u => getChuckCategories u
  | ToolRequest.dadJoke u => getDadJoke u
  | ToolRequest.yoMamaJoke u => getYoMamaJoke u
  | ToolRequest.weather c u => Except.ok (getWeather c u)
  | ToolRequest.weatherV1 c u => Except.ok (getWeatherV1 c u)
  | ToolRequest.weatherV3 c u => getWeatherV3 c u

/-- The results a dispatch delivers on the session's stream: the handler's
result on success, nothing at the source level when the handler's promise
rejects. -/
def deliveredResults (req : ToolRequest) : List InvocationResult :=
  match invokeTool req with
  | Except.ok r => [r]
  | Except.error _ => []

/-- Write results onto one session's stream, leaving every other entry of the
registry untouched. -/
def appendToStream (st : ServerState) (id : SessionId) (rs : List InvocationResult) :
    ServerState :=
  ⟨st.transports.map (fun p => if p.1 = id then (p.1, p.2 ++ rs) else p)⟩

/-- Outcome of one POST `/jokes` dispatch: the synchronous HTTP answer,
whether any tool handler ran, and the registry afterwards. -/
structure DispatchOutcome where
  ack : Ack
  handlerInvoked : Bool
  finalState : ServerState
deriving DecidableEq, Repr

/-- The POST `/jokes` route (`src/unnamed/part_000` lines 157-165): look the
session up in `transports`; absent means answer 400 without invoking anything
and without writing anywhere; present means delegate to `handlePostMessage`,
which acknowledges the POST and runs the tool, whose successful result is
sent on that session's stream.  A handler rejection writes nothing at the
source level (the SDK's own error conversion is outside `src/` and is not
modelled). -/
def dispatch (id : SessionId) (req : ToolRequest) (st : ServerState) :
    DispatchOutcome :=
  match lookupTransport st id with
  | none => ⟨Ack.sessionNotFound, false, st⟩
  | some _ =>
    match invokeTool req with
    | Except.ok r => ⟨Ack.accepted, true, appendToStream st id [r]⟩
    | Except.error _ => ⟨Ack.accepted, true, st⟩

/-- The wttr.in stub of the spec's §8 scenario: current condition `Cloudy`,
15 °C / 59 °F, humidity 70, wind 10. -/
def londonStub : WeatherJson :=
  ⟨[⟨[⟨"Cloudy"⟩], "15", "59", "70", "10"⟩]⟩

/-!
## Helper lemmas about the registry operations
-/

theorem filter_self_idem {α : Type} (f : α → Bool) (l : List α) :
    (l.filter f).filter f = l.filter f := by
  induction l with
  | nil => rfl
  | cons a tl ih =>
    by_cases h : f a = true
    · simp [List.filter_cons, h, ih]
    · simp [List.filter_cons, h, ih]

theorem map_fst_appendToStream (id : SessionId) (rs : List InvocationResult)
    (l : List (SessionId × Stream)) :
    (l.map (fun p => if p.1 = id then (p.1, p.2 ++ rs) else p)).map Prod.fst =
      l.map Prod.fst := by
  induction l with
  | nil => rfl
  | cons p tl ih =>
    by_cases h : p.1 = id
    · simp [h, ih]
    · simp [h, ih]

theorem map_fst_overwrite (id : SessionId) (tr : Stream)
    (l : List (SessionId × Stream)) :
    (l.map (fun p => if p.1 = id then (id, tr) else p)).map Prod.fst =
      l.map Prod.fst := by
  induction l with
  | nil => rfl
  | cons p tl ih =>
    by_cases h : p.1 = id
    · simp [h, ih]
    · simp [h, ih]

theorem keys_appendToStream (st : ServerState) (id : SessionId)
    (rs : List InvocationResult) :
    keys (appendToStream st id rs) = keys st := by
  unfold keys appendToStream
  exact map_fst_appendToStream id rs st.transports

theorem keys_closeSession (st : ServerState) (id : SessionId) :
    keys (closeSession st id) = (keys st).filter (fun k => k != id) := by
  unfold keys closeSession
  induction st.transports with
  | nil => rfl
  | cons p tl ih =>
    by_cases h : p.1 = id
    · simp [List.filter_cons, h, ih]
    · simp [List.filter_cons, h, ih]

theorem find?_update_self (id : SessionId) (rs : List InvocationResult)
    (l : List (SessionId × Stream)) (s : Stream)
    (h : (l.find? (fun p => p.1 == id)).map Prod.snd = some s) :
    ((l.map (fun p => if p.1 = id then (p.1, p.2 ++ rs) else p)).find?
        (fun p => p.1 == id)).map Prod.snd = some (s ++ rs) := by
  induction l with
  | nil => simp at h
  | cons p tl ih =>
    by_cases hp : p.1 = id
    · rw [List.find?_cons_of_pos _ (by simp [hp])] at h
      simp only [Option.map_some'] at h
      injection h with h2
      simp only [List.map_cons, if_pos hp]
      rw [List.find?_cons_of_pos _ (by simp [hp])]
      rw [Option.map_some', h2]
    · rw [List.find?_cons_of_neg _ (by simp [hp])] at h
      simp only [List.map_cons, if_neg hp]
      rw [List.find?_cons_of_neg _ (by simp [hp])]
      exact ih h

theorem find?_update_ne (id j : SessionId) (rs : List InvocationResult)
    (l : List (SessionId × Stream)) (h : j ≠ id) :
    (l.map (fun p => if p.1 = id then (p.1, p.2 ++ rs) else p)).find?
        (fun p => p.1 == j) =
      l.find? (fun p => p.1 == j) := by
  induction l with
  | nil => rfl
  | cons p tl ih =>
    by_cases hj : p.1 = j
    · have hp : ¬ p.1 = id := by
        intro hc
        exact h (hj ▸ hc)
      simp only [List.map_cons, if_neg hp]
      rw [List.find?_cons_of_pos _ (by simp [hj]),
        List.find?_cons_of_pos _ (by simp [hj])]
    · by_cases hp : p.1 = id
      · simp only [List.map_cons, if_pos hp]
        rw [List.find?_cons_of_neg _ (by simp [hj]),
          List.find?_cons_of_neg _ (by simp [hj])]
        exact ih
      · simp only [List.map_cons, if_neg hp]
        rw [List.find?_cons_of_neg _ (by simp [hj]),
          List.find?_cons_of_neg _ (by simp [hj])]
        exact ih

theorem find?_filter_out_self (id : SessionId)
    (l : List (SessionId × Stream)) :
    (l.filter (fun p => p.1 != id)).find? (fun p => p.1 == id) = none := by
  induction l with
  | nil => rfl
  | cons p tl ih =>
    by_cases hp : p.1 = id
    · simp only [List.filter_cons]
      rw [if_neg (by simp [hp])]
      exact ih
    · simp only [List.filter_cons]
      rw [if_pos (by simp [hp])]
      rw [List.find?_cons_of_neg _ (by simp [hp])]
      exact ih

theorem lookupTransport_appendToStream_self (st : ServerState) (id : SessionId)
    (rs : List InvocationResult) (s : Stream)
    (h : lookupTransport st id = some s) :
    lookupTransport (appendToStream st id rs) id = some (s ++ rs) := by
  unfold lookupTransport appendToStream at *
  exact find?_update_self id rs st.transports s h

theorem lookupTransport_appendToStream_ne (st : ServerState) (id j : SessionId)
    (rs : List InvocationResult) (h : j ≠ id) :
    lookupTransport (appendToStream st id rs) j = lookupTransport st j := by
  unfold lookupTransport appendToStream
  rw [find?_update_ne id j rs st.transports h]

theorem lookupTransport_closeSession_self (st : ServerState) (id : SessionId) :
    lookupTransport (closeSession st id) id = none := by
  unfold lookupTransport closeSession
  rw [find?_filter_out_self id st.transports]
  rfl

theorem find?_filter_none {α : Type} (f g : α → Bool) (l : List α)
    (h : l.find? f = none) : (l.filter g).find? f = none := by
  rw [List.find?_eq_none] at *
  intro x hx
  exact h x (List.mem_of_mem_filter hx)

theorem dispatch_found_ok (id : SessionId) (req : ToolRequest)
    (st : ServerState) (s : Stream) (r : InvocationResult)
    (h : lookupTransport st id = some s)
    (hr : invokeTool req = Except.ok r) :
    dispatch id req st = ⟨Ack.accepted, true, appendToStream st id [r]⟩ := by
  unfold dispatch
  rw [h, hr]

theorem dispatch_found_error (id : SessionId) (req : ToolRequest)
    (st : ServerState) (s : Stream) (e : Unit)
    (h : lookupTransport st id = some s)
    (hr : invokeTool req = Except.error e) :
    dispatch id req st = ⟨Ack.accepted, true, st⟩ := by
  unfold dispatch
  rw [h, hr]

theorem dispatch_none (id : SessionId) (req : ToolRequest) (st : ServerState)
    (h : lookupTransport st id = none) :
    dispatch id req st = ⟨Ack.sessionNotFound, false, st⟩ := by
  unfold dispatch
  rw [h]

/-!
## Claim theorems
-/

/-- C1: a POST whose session id is absent from `transports` is answered with
the 400 `SessionNotFound` rejection (a 400-class status), no tool handler
runs, and the whole server state — every stream included — is left exactly as
it was. -/
theorem dispatch_unknown_session_rejected
    (id : SessionId) (req : ToolRequest) (st : ServerState)
    (h : lookupTransport st id = none) :
    dispatch id req st = ⟨Ack.sessionNotFound, false, st⟩ ∧
      400 ≤ ackStatus Ack.sessionNotFound ∧ ackStatus Ack.sessionNotFound < 500 :=
  ⟨dispatch_none id req st h, by decide, by decide⟩

/-- C1 witness: concrete rejection on an empty registry. -/
theorem dispatch_unknown_session_rejected_witness :
    dispatch 0 (ToolRequest.chuckJoke (Except.ok "j")) ⟨[]⟩ =
        ⟨Ack.sessionNotFound, false, ⟨[]⟩⟩ ∧
      400 ≤ ackStatus Ack.sessionNotFound ∧ ackStatus Ack.sessionNotFound < 500 :=
  dispatch_unknown_session_rejected 0 (ToolRequest.chuckJoke (Except.ok "j")) ⟨[]⟩ rfl

/-- C4: `close` is idempotent and removes the session's entry: a lookup right
after the close finds nothing, and neither do lookups after any further
dispatch or after closing any other session (ids are never reissued, so no
later open can resurrect the id). -/
theorem close_idempotent_and_lookup_none (st : ServerState) (id : SessionId) :
    closeSession (closeSession st id) id = closeSession st id ∧
      lookupTransport (closeSession st id) id = none ∧
      (∀ (j : SessionId) (r : ToolRequest),
        lookupTransport ((dispatch j r (closeSession st id)).finalState) id = none) ∧
      (∀ j : SessionId,
        lookupTransport (closeSession (closeSession st id) j) id = none) := by
  refine ⟨?_, lookupTransport_closeSession_self st id, ?_, ?_⟩
  · unfold closeSession
    exact congrArg ServerState.mk (filter_self_idem _ _)
  · intro j r
    cases hl : lookupTransport (closeSession st id) j with
    | none =>
      rw [dispatch_none j r _ hl]
      exact lookupTransport_closeSession_self st id
    | some s =>
      have hji : j ≠ id := by
        intro hc
        rw [hc, lookupTransport_closeSession_self st id] at hl
        exact Option.noConfusion hl
      cases hr : invokeTool r with
      | ok res =>
        rw [dispatch_found_ok j r _ s res hl hr]
        rw [lookupTransport_appendToStream_ne _ j id [res] (Ne.symm hji)]
        exact lookupTransport_closeSession_self st id
      | error e =>
        rw [dispatch_found_error j r _ s e hl hr]
        exact lookupTransport_closeSession_self st id
  · intro j
    unfold lookupTransport closeSession
    rw [find?_filter_none _ _ _ ?_]
    · rfl
    · have h0 := lookupTransport_closeSession_self st id
      unfold lookupTransport closeSession at h0
      exact Option.map_eq_none'.mp h0

/-- C5: with a registered session the synchronous POST answer is the accepted
acknowledgment with status 200, identical whatever the request or its
outcome — the tool result never rides on the POST response — while results
are delivered solely by appending onto that session's stream. -/
theorem ack_decoupled_from_result (id : SessionId) (req req2 : ToolRequest)
    (st : ServerState) (s : Stream) (h : lookupTransport st id = some s) :
    (dispatch id req st).ack = Ack.accepted ∧
      ackStatus (dispatch id req st).ack = 200 ∧
      (dispatch id req st).ack = (dispatch id req2 st).ack ∧
      lookupTransport ((dispatch id req st).finalState) id =
        some (s ++ deliveredResults req) := by
  have hstream : lookupTransport ((dispatch id req st).finalState) id =
      some (s ++ deliveredResults req) := by
    unfold deliveredResults
    cases hr : invokeTool req with
    | ok r =>
      rw [dispatch_found_ok id req st s r h hr]
      exact lookupTransport_appendToStream_self st id [r] s h
    | error e =>
      rw [dispatch_found_error id req st s e h hr]
      rw [List.append_nil]
      exact h
  have hack : ∀ q : ToolRequest, (dispatch id q st).ack = Ack.accepted := by
    intro q
    cases hr : invokeTool q with
    | ok r => rw [dispatch_found_ok id q st s r h hr]
    | error e => rw [dispatch_found_error id q st s e h hr]
  refine ⟨hack req, ?_, ?_, hstream⟩
  · rw [hack req]
    decide
  · rw [hack req, hack req2]

/-- C5 witness: concrete two-channel decoupling on a one-session registry. -/
theorem ack_decoupled_from_result_witness :
    (dispatch 3 (ToolRequest.dadJoke (Except.ok "d")) ⟨[(3, [])]⟩).ack = Ack.accepted ∧
      ackStatus (dispatch 3 (ToolRequest.dadJoke (Except.ok "d")) ⟨[(3, [])]⟩).ack = 200 ∧
      (dispatch 3 (ToolRequest.dadJoke (Except.ok "d")) ⟨[(3, [])]⟩).ack =
        (dispatch 3 (ToolRequest.yoMamaJoke (Except.error ())) ⟨[(3, [])]⟩).ack ∧
      lookupTransport
          ((dispatch 3 (ToolRequest.dadJoke (Except.ok "d")) ⟨[(3, [])]⟩).finalState) 3 =
        some ([] ++ deliveredResults (ToolRequest.dadJoke (Except.ok "d"))) :=
  ack_decoupled_from_result 3 (ToolRequest.dadJoke (Except.ok "d"))
    (ToolRequest.yoMamaJoke (Except.error ())) ⟨[(3, [])]⟩ [] rfl

/-- C7: dispatching `get-weather` with `city = "London"` on a registered
session against the stubbed upstream (`Cloudy`, 15 °C / 59 °F, humidity 70,
wind 10) appends exactly one result, holding exactly one text block equal to
the fixed template. -/
theorem london_weather_template (id : SessionId) (st : ServerState) (s : Stream)
    (h : lookupTransport st id = some s) :
    lookupTransport
        ((dispatch id (ToolRequest.weather (some "London") (Except.ok londonStub)) st).finalState)
        id =
      some (s ++ [⟨[⟨"text",
        "Weather in London: Cloudy. Temp 15 °C (59 °F), Humidity 70 %, Wind 10 km/h."⟩]⟩]) := by
  have hw : invokeTool (ToolRequest.weather (some "London") (Except.ok londonStub)) =
      Except.ok ⟨[⟨"text",
        "Weather in London: Cloudy. Temp 15 °C (59 °F), Humidity 70 %, Wind 10 km/h."⟩]⟩ := by
    have hg : getWeather (some "London") (Except.ok londonStub) =
        ⟨[⟨"text",
          "Weather in London: Cloudy. Temp 15 °C (59 °F), Humidity 70 %, Wind 10 km/h."⟩]⟩ := by
      decide
    show Except.ok (getWeather (some "London") (Except.ok londonStub)) = _
    rw [hg]
  rw [dispatch_found_ok id _ st s _ h hw]
  exact lookupTransport_appendToStream_self st id _ s h

/-- C7 witness: the scenario on a concrete one-session registry. -/
theorem london_weather_template_witness :
    lookupTransport
        ((dispatch 7 (ToolRequest.weather (some "London") (Except.ok londonStub)) ⟨[(7, [])]⟩).finalState)
        7 =
      some ([] ++ [⟨[⟨"text",
        "Weather in London: Cloudy. Temp 15 °C (59 °F), Humidity 70 %, Wind 10 km/h."⟩]⟩]) :=
  london_weather_template 7 ⟨[(7, [])]⟩ [] rfl

/-- C10: a dispatch never changes the registry's key set and leaves every
session other than the addressed one untouched; entries are added only on the
stream-open path (which contributes exactly its own fresh id) and removed
only by the close callback (which removes exactly its own id). -/
theorem dispatch_preserves_registry (id : SessionId) (req : ToolRequest)
    (st : ServerState) :
    keys ((dispatch id req st).finalState) = keys st ∧
      (∀ j : SessionId, j ≠ id →
        lookupTransport ((dispatch id req st).finalState) j = lookupTransport st j) ∧
      (∀ g : Nat, keys ((openSession st g).2.1) = keys st ∨
        keys ((openSession st g).2.1) = keys st ++ [g]) ∧
      (∀ i : SessionId,
        keys (closeSession st i) = (keys st).filter (fun k => k != i)) := by
  refine ⟨?_, ?_, ?_, keys_closeSession st⟩
  · cases hl : lookupTransport st id with
    | none => rw [dispatch_none id req st hl]
    | some s =>
      cases hr : invokeTool req with
      | ok r =>
        rw [dispatch_found_ok id req st s r hl hr]
        exact keys_appendToStream st id [r]
      | error e => rw [dispatch_found_error id req st s e hl hr]
  · intro j hj
    cases hl : lookupTransport st id with
    | none => rw [dispatch_none id req st hl]
    | some s =>
      cases hr : invokeTool req with
      | ok r =>
        rw [dispatch_found_ok id req st s r hl hr]
        exact lookupTransport_appendToStream_ne st id j [r] hj
      | error e => rw [dispatch_found_error id req st s e hl hr]
  · intro g
    unfold openSession genId insertTransport
    by_cases hc : (keys st).contains g = true
    · left
      simp only [hc, if_pos]
      unfold keys
      exact map_fst_overwrite g [] st.transports
    · right
      simp only [hc, if_neg]
      unfold keys
      simp [List.map_append]

/-- C2 counterexample: the `get-chuck-joke` handler has no try/catch, so an
upstream failure propagates out of the handler as a rejection instead of
being converted into an explanatory result at the handler boundary. -/
theorem chuckJoke_failure_propagates :
    getChuckJoke (Except.error ()) = Except.error () := rfl

/-- C2 amended: the guarded `get-weather` handler converts every failure of
its upstream call — a rejected fetch/parse as well as a payload without
`current_condition[0]` — into the apologetic text block naming the requested
city, and no fault escapes it; the joke handlers, by contrast, propagate
their upstream rejections past the handler boundary. -/
theorem weather_handler_failures_converted (c : String)
    (h : ¬ jsTrim c = "") :
    getWeather (some c) (Except.error ()) =
        ⟨[⟨"text", weatherSorry (jsTrim c)⟩]⟩ ∧
      getWeather (some c) (Except.ok ⟨[]⟩) =
        ⟨[⟨"text", weatherSorry (jsTrim c)⟩]⟩ := by
  constructor <;> simp [getWeather, h]

/-- C2 witness: concrete conversion of a failed upstream call for London. -/
theorem weather_handler_failures_converted_witness :
    getWeather (some "London") (Except.error ()) =
        ⟨[⟨"text", weatherSorry (jsTrim "London")⟩]⟩ ∧
      getWeather (some "London") (Except.ok ⟨[]⟩) =
        ⟨[⟨"text", weatherSorry (jsTrim "London")⟩]⟩ :=
  weather_handler_failures_converted "London" (by decide)

/-- C3 counterexample: the third `get-weather` variant, dispatched on a valid
session with no `city` argument and an upstream answer without
`current_condition`, delivers the apology interpolating the literal
`undefined` — not a guidance block about the missing required argument
(it differs from both guidance messages the guarded variants emit). -/
theorem weatherV3_missing_city_no_guidance :
    lookupTransport
        ((dispatch 1 (ToolRequest.weatherV3 none (Except.ok ⟨[]⟩))
          ⟨[(1, [])]⟩).finalState) 1 =
      some [⟨[⟨"text", "Sorry—couldn’t fetch weather for “undefined”."⟩]⟩] ∧
      ¬ "Sorry—couldn’t fetch weather for “undefined”." =
          "Please specify a city name (e.g. London)." ∧
      ¬ "Sorry—couldn’t fetch weather for “undefined”." =
          "Please tell me which city." := by
  refine ⟨?_, by decide, by decide⟩
  rfl

/-- C3 amended: for the two guarded `get-weather` variants a dispatch with a
valid session and no `city` argument is acknowledged normally (no
transport-level error) and delivers exactly one guidance block asking for the
city, whatever the upstream would have answered; the third variant instead
interpolates `undefined` into its upstream call and its reply. -/
theorem weather_missing_city_guidance (id : SessionId) (st : ServerState)
    (s : Stream) (u : Except Unit WeatherJson)
    (h : lookupTransport st id = some s) :
    (dispatch id (ToolRequest.weather none u) st).ack = Ack.accepted ∧
      lookupTransport
          ((dispatch id (ToolRequest.weather none u) st).finalState) id =
        some (s ++ [⟨[⟨"text", "Please specify a city name (e.g. London)."⟩]⟩]) ∧
      (dispatch id (ToolRequest.weatherV1 none u) st).ack = Ack.accepted ∧
      lookupTransport
          ((dispatch id (ToolRequest.weatherV1 none u) st).finalState) id =
        some (s ++ [⟨[⟨"text", "Please tell me which city."⟩]⟩]) := by
  have hw : invokeTool (ToolRequest.weather none u) =
      Except.ok ⟨[⟨"text", "Please specify a city name (e.g. London)."⟩]⟩ := rfl
  have hw1 : invokeTool (ToolRequest.weatherV1 none u) =
      Except.ok ⟨[⟨"text", "Please tell me which city."⟩]⟩ := rfl
  rw [dispatch_found_ok id _ st s _ h hw, dispatch_found_ok id _ st s _ h hw1]
  exact ⟨rfl, lookupTransport_appendToStream_self st id _ s h, rfl,
    lookupTransport_appendToStream_self st id _ s h⟩

/-- C3 witness: concrete guidance delivery on a one-session registry. -/
theorem weather_missing_city_guidance_witness :
    (dispatch 4 (ToolRequest.weather none (Except.error ())) ⟨[(4, [])]⟩).ack =
        Ack.accepted ∧
      lookupTransport
          ((dispatch 4 (ToolRequest.weather none (Except.error ()))
            ⟨[(4, [])]⟩).finalState) 4 =
        some ([] ++ [⟨[⟨"text", "Please specify a city name (e.g. London)."⟩]⟩]) ∧
      (dispatch 4 (ToolRequest.weatherV1 none (Except.error ())) ⟨[(4, [])]⟩).ack =
        Ack.accepted ∧
      lookupTransport
          ((dispatch 4 (ToolRequest.weatherV1 none (Except.error ()))
            ⟨[(4, [])]⟩).finalState) 4 =
        some ([] ++ [⟨[⟨"text", "Please tell me which city."⟩]⟩]) :=
  weather_missing_city_guidance 4 ⟨[(4, [])]⟩ [] (Except.error ()) rfl

/-- The ids an open sequence issues are the counter interval, and the counter
advances past all of them. -/
theorem openMany_ids (st : ServerState) (g n : Nat) :
    (openMany st g n).1 = List.range' g n ∧ (openMany st g n).2.2 = g + n := by
  induction n generalizing st g with
  | zero => exact ⟨rfl, rfl⟩
  | succ n ih =>
    obtain ⟨h1, h2⟩ := ih (insertTransport st g []) (g + 1)
    refine ⟨?_, ?_⟩
    · show g :: (openMany (insertTransport st g []) (g + 1) n).1 =
        List.range' g (n + 1)
      rw [h1]
      rfl
    · show (openMany (insertTransport st g []) (g + 1) n).2.2 = g + (n + 1)
      rw [h2]
      omega

theorem keys_insertTransport_nodup (st : ServerState) (id : SessionId)
    (tr : Stream) (h : (keys st).Nodup) :
    (keys (insertTransport st id tr)).Nodup := by
  unfold insertTransport
  by_cases hc : (keys st).contains id = true
  · rw [if_pos hc]
    show ((st.transports.map fun p => if p.1 = id then (id, tr) else p).map
      Prod.fst).Nodup
    rw [map_fst_overwrite]
    exact h
  · rw [if_neg hc]
    show ((st.transports ++ [(id, tr)]).map Prod.fst).Nodup
    rw [List.map_append]
    have hid : id ∉ keys st := by
      simp at hc
      exact hc
    simp only [List.nodup_append, List.map_cons, List.map_nil]
    refine ⟨h, List.nodup_singleton _, ?_⟩
    intro a ha hb
    simp only [List.mem_singleton] at hb
    subst hb
    exact hid ha

theorem keys_openMany_nodup (st : ServerState) (g n : Nat)
    (h : (keys st).Nodup) : (keys (openMany st g n).2.1).Nodup := by
  induction n generalizing st g with
  | zero => exact h
  | succ n ih =>
    show (keys (openMany (insertTransport st g []) (g + 1) n).2.1).Nodup
    exact ih (insertTransport st g []) (g + 1) (keys_insertTransport_nodup st g [] h)

/-- C6: the ids issued by any sequence of opens are pairwise distinct; any id
issued before the sequence started — in particular an id whose session has
been closed — is never issued again; and the registry keeps at most one live
entry per identifier through opens and closes. -/
theorem open_ids_distinct_never_reused (st : ServerState) (g n : Nat) :
    ((openMany st g n).1).Nodup ∧
      (∀ id : SessionId, id < g → id ∉ (openMany st g n).1) ∧
      ((keys st).Nodup → (keys (openMany st g n).2.1).Nodup) ∧
      (∀ i : SessionId, (keys st).Nodup → (keys (closeSession st i)).Nodup) := by
  obtain ⟨h1, _⟩ := openMany_ids st g n
  refine ⟨?_, ?_, keys_openMany_nodup st g n, ?_⟩
  · rw [h1]
    exact List.nodup_range' g n 1 (by omega)
  · intro id hlt hm
    rw [h1] at hm
    have h2 := (List.mem_range'_1.mp hm).1
    exact absurd (Nat.lt_of_lt_of_le hlt h2) (Nat.lt_irrefl id)
  · intro i hn
    rw [keys_closeSession]
    exact hn.filter _

/-- C6 witness: three concrete opens from counter 5 on an empty registry. -/
theorem open_ids_distinct_never_reused_witness :
    ((openMany ⟨[]⟩ 5 3).1).Nodup ∧ 2 ∉ (openMany ⟨[]⟩ 5 3).1 ∧
      (keys (openMany ⟨[]⟩ 5 3).2.1).Nodup :=
  ⟨(open_ids_distinct_never_reused ⟨[]⟩ 5 3).1,
    (open_ids_distinct_never_reused ⟨[]⟩ 5 3).2.1 2 (by decide),
    (open_ids_distinct_never_reused ⟨[]⟩ 5 3).2.2.1 (by decide)⟩

theorem getWeather_shape (p : Option String) (u : Except Unit WeatherJson) :
    ∃ t : String, getWeather p u = ⟨[⟨"text", t⟩]⟩ := by
  unfold getWeather
  split
  · exact ⟨_, rfl⟩
  · split
    · exact ⟨_, rfl⟩
    · split
      · exact ⟨_, rfl⟩
      · split
        · exact ⟨_, rfl⟩
        · exact ⟨_, rfl⟩

theorem getWeatherV1_shape (p : Option String) (u : Except Unit WeatherJson) :
    ∃ t : String, getWeatherV1 p u = ⟨[⟨"text", t⟩]⟩ := by
  unfold getWeatherV1
  split
  · exact ⟨_, rfl⟩
  · split
    · exact ⟨_, rfl⟩
    · split
      · exact ⟨_, rfl⟩
      · split
        · exact ⟨_, rfl⟩
        · exact ⟨_, rfl⟩

theorem getWeatherV3_ok_shape (p : Option String) (u : Except Unit WeatherJson)
    (r : InvocationResult) (h : getWeatherV3 p u = Except.ok r) :
    ∃ t : String, r = ⟨[⟨"text", t⟩]⟩ := by
  unfold getWeatherV3 at h
  split at h
  · exact absurd h (by simp)
  · split at h
    · injection h with h2
      exact ⟨_, h2.symm⟩
    · injection h with h2
      exact ⟨_, h2.symm⟩

theorem joke_ok_shape (u : Except Unit String) (r : InvocationResult)
    (mk : String → InvocationResult)
    (hmk : ∀ v, mk v = ⟨[⟨"text", v⟩]⟩)
    (h : (match u with
      | Except.error e => Except.error e
      | Except.ok v => Except.ok (mk v)) = Except.ok r) :
    ∃ t : String, r = ⟨[⟨"text", t⟩]⟩ := by
  cases u with
  | error e => exact absurd h (by simp)
  | ok v =>
    simp only [hmk] at h
    injection h with h2
    exact ⟨_, h2.symm⟩

/-- C9: every result a registered tool handler returns — success, caught
failure, and missing-argument paths alike — has a `content` of exactly one
block, and that block's kind is `text`.  (Handlers without a try/catch return
no result at all on a rejected upstream call; that case returns nothing
rather than a differently shaped value.) -/
theorem handlers_return_single_text_block (req : ToolRequest)
    (r : InvocationResult) (h : invokeTool req = Except.ok r) :
    r.content.length = 1 ∧ ∀ b ∈ r.content, b.type = "text" := by
  have hshape : ∃ t : String, r = ⟨[⟨"text", t⟩]⟩ := by
    cases req with
    | chuckJoke u =>
      unfold invokeTool getChuckJoke at h
      exact joke_ok_shape u r (fun v => ⟨[⟨"text", v⟩]⟩) (fun v => rfl) h
    | chuckCategories u =>
      unfold invokeTool getChuckCategories at h
      cases u with
      | error e => exact absurd h (by simp)
      | ok data =>
        injection h with h2
        exact ⟨_, h2.symm⟩
    | dadJoke u =>
      unfold invokeTool getDadJoke at h
      exact joke_ok_shape u r (fun v => ⟨[⟨"text", v⟩]⟩) (fun v => rfl) h
    | yoMamaJoke u =>
      unfold invokeTool getYoMamaJoke at h
      exact joke_ok_shape u r (fun v => ⟨[⟨"text", v⟩]⟩) (fun v => rfl) h
    | weather c u =>
      have h2 : getWeather c u = r := by
        unfold invokeTool at h
        injection h
      obtain ⟨t, ht⟩ := getWeather_shape c u
      exact ⟨t, h2.symm.trans ht⟩
    | weatherV1 c u =>
      have h2 : getWeatherV1 c u = r := by
        unfold invokeTool at h
        injection h
      obtain ⟨t, ht⟩ := getWeatherV1_shape c u
      exact ⟨t, h2.symm.trans ht⟩
    | weatherV3 c u =>
      unfold invokeTool at h
      exact getWeatherV3_ok_shape c u r h
  obtain ⟨t, rfl⟩ := hshape
  refine ⟨rfl, ?_⟩
  intro b hb
  simp only [List.mem_singleton] at hb
  subst hb
  rfl

/-- C9 witness: concrete single-text-block result of the dad-joke handler. -/
theorem handlers_return_single_text_block_witness :
    invokeTool (ToolRequest.dadJoke (Except.ok "haha")) =
        Except.ok ⟨[⟨"text", "haha"⟩]⟩ ∧
      ((⟨[⟨"text", "haha"⟩]⟩ : InvocationResult).content.length = 1 ∧
        ∀ b ∈ (⟨[⟨"text", "haha"⟩]⟩ : InvocationResult).content,
          b.type = "text") :=
  ⟨rfl, handlers_return_single_text_block
    (ToolRequest.dadJoke (Except.ok "haha")) ⟨[⟨"text", "haha"⟩]⟩ rfl⟩

/-- C10 witness: a concrete dispatch preserves the keys and the other
session's entry. -/
theorem dispatch_preserves_registry_witness :
    keys ((dispatch 1 (ToolRequest.dadJoke (Except.ok "d")) ⟨[(1, []), (2, [])]⟩).finalState) =
        keys ⟨[(1, []), (2, [])]⟩ ∧
      lookupTransport
          ((dispatch 1 (ToolRequest.dadJoke (Except.ok "d")) ⟨[(1, []), (2, [])]⟩).finalState) 2 =
        lookupTransport ⟨[(1, []), (2, [])]⟩ 2 :=
  ⟨(dispatch_preserves_registry 1 (ToolRequest.dadJoke (Except.ok "d")) ⟨[(1, []), (2, [])]⟩).1,
    (dispatch_preserves_registry 1 (ToolRequest.dadJoke (Except.ok "d"))
      ⟨[(1, []), (2, [])]⟩).2.1 2 (by decide)⟩

end JokesMCP
